import Mathlib

/-!
Verification development for the omniparse repository.

Two source files are modelled:
* `omniparse/__init__.py` — the model loader writing into a shared holder
  (`SharedState`, `load_omnimodel`).
* `tutorial_poc.py` — the HTTP API test client (`OmniParseAPIClient`
  methods, `run_tests`, the CLI `main` dispatch).

External effects are modelled explicitly: the outcomes of the external
library calls (model loading, HTTP requests, filesystem existence checks)
are inputs of the embedded functions, an `Except.error` standing for a
raised exception; each client method also returns the list of HTTP
requests it issued.
-/

namespace Omniparse

/-- The process-wide mutable holder of `omniparse/__init__.py`
(`class SharedState(BaseModel)`); each field defaults to `None`.
Loaded model objects are abstracted as `Nat` handles. -/
structure SharedState where
  model_list : Option Nat := none
  vision_model : Option Nat := none
  vision_processor : Option Nat := none
  whisper_model : Option Nat := none
  crawler : Option Nat := none
deriving Repr, DecidableEq

/-- `shared_state = SharedState()`: the initial, all-`None` holder. -/
def initialSharedState : SharedState := {}

/-- Outcomes of the external library calls performed by `load_omnimodel`.
`Except.error e` models the call raising an exception with message `e`;
`Except.ok n` models it returning the (abstracted) object `n`. -/
structure LoadEnv where
  load_all_models : Except String Nat
  florence_model : Except String Nat
  florence_processor : Except String Nat
  whisper_load_model : Except String Nat
  webcrawler_new : Except String Nat

/-- The `if load_documents:` block of `load_omnimodel`: assigns
`model_list` (an uncaught exception propagates), then inside
`try/except Exception` assigns `vision_model` and `vision_processor`,
resetting both fields to `None` on any failure. -/
def loadDocumentsStep (env : LoadEnv) (s : SharedState) : Except String SharedState :=
  match env.load_all_models with
  | .error e => .error e
  | .ok m =>
    let s := { s with model_list := some m }
    match env.florence_model with
    | .error _ => .ok { s with vision_model := none, vision_processor := none }
    | .ok vm =>
      let s := { s with vision_model := some vm }
      match env.florence_processor with
      | .error _ => .ok { s with vision_model := none, vision_processor := none }
      | .ok vp => .ok { s with vision_processor := some vp }

/-- The `if load_media:` block: `shared_state.whisper_model =
whisper.load_model("small")`; an exception propagates. -/
def loadMediaStep (env : LoadEnv) (s : SharedState) : Except String SharedState :=
  match env.whisper_load_model with
  | .error e => .error e
  | .ok w => .ok { s with whisper_model := some w }

/-- The `if load_web:` block: `shared_state.crawler =
WebCrawler(verbose=True)`; an exception propagates. -/
def loadWebStep (env : LoadEnv) (s : SharedState) : Except String SharedState :=
  match env.webcrawler_new with
  | .error e => .error e
  | .ok c => .ok { s with crawler := some c }

/-- `load_omnimodel(load_documents, load_media, load_web)`: runs the three
conditional load blocks in order over the shared holder. -/
def load_omnimodel (load_documents load_media load_web : Bool)
    (env : LoadEnv) (s : SharedState) : Except String SharedState := do
  let s ← if load_documents then loadDocumentsStep env s else pure s
  let s ← if load_media then loadMediaStep env s else pure s
  if load_web then loadWebStep env s else pure s

/-- The vision-model `try` block fails: either
`AutoModelForCausalLM.from_pretrained(...).to(device)` or
`AutoProcessor.from_pretrained(...)` raises. -/
def visionLoadFails (env : LoadEnv) : Prop :=
  (∃ e, env.florence_model = .error e) ∨ (∃ e, env.florence_processor = .error e)

/-- The holder after the documents block when the vision `try` failed:
`model_list` assigned, both vision fields reset to `None`. -/
def afterVisionFailure (s : SharedState) (m : Nat) : SharedState :=
  { s with model_list := some m, vision_model := none, vision_processor := none }

/-- Fixture: every external load succeeds. -/
def envAllOk : LoadEnv :=
  ⟨.ok 1, .ok 2, .ok 3, .ok 4, .ok 5⟩

/-- Fixture: the vision model load raises (missing optional dependency),
everything else succeeds. -/
def envVisionFail : LoadEnv :=
  ⟨.ok 1, .error "flash_attn is not installed", .ok 3, .ok 4, .ok 5⟩

end Omniparse

namespace TutorialPoc

/-- Decoded JSON payload of a response, abstracted as its raw text. -/
structure Json where
  raw : String
deriving Repr, DecidableEq

/-- An HTTP response as seen through the `requests` library: its status
code, its body text, and the outcome of `response.json()` (which raises
on an undecodable body, modelled by `Except.error`). -/
structure HttpResponse where
  status_code : Nat
  text : String
  jsonResult : Except String Json

/-- An HTTP request the client issues: the verb, the full URL, the
timeout in seconds, an optional uploaded file as
(form field name, local path, optional declared content type), optional
form data, query parameters, and extra headers. -/
structure HttpRequest where
  method : String
  url : String
  timeout : Nat
  fileField : Option (String × String × Option String) := none
  formData : List (String × String) := []
  params : List (String × String) := []
  headers : List (String × String) := []

/-- The external world the script interacts with: `os.path.exists`, and
the network, where `Except.error e` models `requests` raising a
`requests.exceptions.RequestException` with message `e` (and a decode
failure inside `response.json()` raises
`requests.exceptions.JSONDecodeError`, a `RequestException` subclass). -/
structure Env where
  fileExists : String → Bool
  http : HttpRequest → Except String HttpResponse

/-- `OmniParseAPIClient.__init__`: stores host and port. -/
structure Client where
  host : String
  port : Nat
deriving Repr, DecidableEq

/-- `self.base_url = f"http://{host}:{port}"`. -/
def Client.base_url (c : Client) : String :=
  "http://" ++ c.host ++ ":" ++ toString c.port

/-- The uniform result dictionary a client method returns:
`ApiResult.ok` is `{"success": True, "status_code": ..., "data": ...}`,
`ApiResult.err` is `{"success": False, "error": ...}`. -/
inductive ApiResult where
  | ok (status_code : Nat) (data : Json)
  | err (error : String)
deriving Repr, DecidableEq

/-- The `success` field of the result dictionary. -/
def ApiResult.success : ApiResult → Bool
  | .ok _ _ => true
  | .err _ => false

/-- The `error` field of the result dictionary, when present. -/
def ApiResult.errorMsg : ApiResult → Option String
  | .ok _ _ => none
  | .err e => some e

/-- The `GET {base_url}/` request of `test_health` (timeout 5). -/
def healthRequest (c : Client) : HttpRequest :=
  { method := "GET", url := c.base_url ++ "/", timeout := 5 }

/-- `test_health`: GET the root endpoint; on an empty body the data
defaults to a server-is-running message, otherwise `response.json()` is
used; any `RequestException` is converted to a failure result. -/
def test_health (env : Env) (c : Client) : ApiResult × List HttpRequest :=
  let req := healthRequest c
  match env.http req with
  | .error e => (.err e, [req])
  | .ok resp =>
    if resp.text = "" then
      (.ok resp.status_code (Json.mk "message: Server is running"), [req])
    else
      match resp.jsonResult with
      | .ok j => (.ok resp.status_code j, [req])
      | .error e => (.err e, [req])

/-- The `POST {base_url}/parse_document` multipart request of
`parse_document` (field `file`, declared type `application/pdf`,
timeout 300). -/
def documentRequest (c : Client) (file_path : String) : HttpRequest :=
  { method := "POST", url := c.base_url ++ "/parse_document", timeout := 300,
    fileField := some ("file", file_path, some "application/pdf") }

/-- `parse_document`: returns a file-not-found failure without any
request when the path does not exist, otherwise POSTs the file and wraps
the response; a `RequestException` becomes a failure result. -/
def parse_document (env : Env) (c : Client) (file_path : String) :
    ApiResult × List HttpRequest :=
  if env.fileExists file_path = false then
    (.err ("File not found: " ++ file_path), [])
  else
    let req := documentRequest c file_path
    match env.http req with
    | .error e => (.err e, [req])
    | .ok resp =>
      match resp.jsonResult with
      | .ok j => (.ok resp.status_code j, [req])
      | .error e => (.err e, [req])

/-- The `POST {base_url}{endpoint}` multipart request of
`_parse_file_endpoint` (field `file`, timeout 300). -/
def fileEndpointRequest (c : Client) (endpoint file_path : String) : HttpRequest :=
  { method := "POST", url := c.base_url ++ endpoint, timeout := 300,
    fileField := some ("file", file_path, none) }

/-- `_parse_file_endpoint`: shared helper for the per-format document
endpoints; same shape as `parse_document`. -/
def _parse_file_endpoint (env : Env) (c : Client) (endpoint file_path : String) :
    ApiResult × List HttpRequest :=
  if env.fileExists file_path = false then
    (.err ("File not found: " ++ file_path), [])
  else
    let req := fileEndpointRequest c endpoint file_path
    match env.http req with
    | .error e => (.err e, [req])
    | .ok resp =>
      match resp.jsonResult with
      | .ok j => (.ok resp.status_code j, [req])
      | .error e => (.err e, [req])

/-- `parse_document_pdf`. -/
def parse_document_pdf (env : Env) (c : Client) (file_path : String) :
    ApiResult × List HttpRequest :=
  _parse_file_endpoint env c "/parse_document/pdf" file_path

/-- `parse_document_ppt`. -/
def parse_document_ppt (env : Env) (c : Client) (file_path : String) :
    ApiResult × List HttpRequest :=
  _parse_file_endpoint env c "/parse_document/ppt" file_path

/-- `parse_document_docs`. -/
def parse_document_docs (env : Env) (c : Client) (file_path : String) :
    ApiResult × List HttpRequest :=
  _parse_file_endpoint env c "/parse_document/docs" file_path

/-- The `POST {base_url}/parse_image/image` request of `parse_image`
(field `file`, timeout 300). -/
def imageRequest (c : Client) (file_path : String) : HttpRequest :=
  { method := "POST", url := c.base_url ++ "/parse_image/image", timeout := 300,
    fileField := some ("file", file_path, none) }

/-- `parse_image`. -/
def parse_image (env : Env) (c : Client) (file_path : String) :
    ApiResult × List HttpRequest :=
  if env.fileExists file_path = false then
    (.err ("File not found: " ++ file_path), [])
  else
    let req := imageRequest c file_path
    match env.http req with
    | .error e => (.err e, [req])
    | .ok resp =>
      match resp.jsonResult with
      | .ok j => (.ok resp.status_code j, [req])
      | .error e => (.err e, [req])

/-- The `POST {base_url}/parse_image/process_image` request of
`process_image` (field `image`, form data `task`, timeout 300). -/
def processImageRequest (c : Client) (file_path task : String) : HttpRequest :=
  { method := "POST", url := c.base_url ++ "/parse_image/process_image",
    timeout := 300, fileField := some ("image", file_path, none),
    formData := [("task", task)] }

/-- `process_image`. -/
def process_image (env : Env) (c : Client) (file_path task : String) :
    ApiResult × List HttpRequest :=
  if env.fileExists file_path = false then
    (.err ("File not found: " ++ file_path), [])
  else
    let req := processImageRequest c file_path task
    match env.http req with
    | .error e => (.err e, [req])
    | .ok resp =>
      match resp.jsonResult with
      | .ok j => (.ok resp.status_code j, [req])
      | .error e => (.err e, [req])

/-- The `POST {base_url}/parse_media/audio` request of
`parse_media_audio` (field `file`, timeout 600). -/
def audioRequest (c : Client) (file_path : String) : HttpRequest :=
  { method := "POST", url := c.base_url ++ "/parse_media/audio", timeout := 600,
    fileField := some ("file", file_path, none) }

/-- `parse_media_audio`. -/
def parse_media_audio (env : Env) (c : Client) (file_path : String) :
    ApiResult × List HttpRequest :=
  if env.fileExists file_path = false then
    (.err ("File not found: " ++ file_path), [])
  else
    let req := audioRequest c file_path
    match env.http req with
    | .error e => (.err e, [req])
    | .ok resp =>
      match resp.jsonResult with
      | .ok j => (.ok resp.status_code j, [req])
      | .error e => (.err e, [req])

/-- The `POST {base_url}/parse_media/video` request of
`parse_media_video` (field `file`, timeout 600). -/
def videoRequest (c : Client) (file_path : String) : HttpRequest :=
  { method := "POST", url := c.base_url ++ "/parse_media/video", timeout := 600,
    fileField := some ("file", file_path, none) }

/-- `parse_media_video`. -/
def parse_media_video (env : Env) (c : Client) (file_path : String) :
    ApiResult × List HttpRequest :=
  if env.fileExists file_path = false then
    (.err ("File not found: " ++ file_path), [])
  else
    let req := videoRequest c file_path
    match env.http req with
    | .error e => (.err e, [req])
    | .ok resp =>
      match resp.jsonResult with
      | .ok j => (.ok resp.status_code j, [req])
      | .error e => (.err e, [req])

/-- The `POST {base_url}/parse_website/parse` request of `parse_website`
(query parameter `url`, accept header, timeout 60). -/
def websiteRequest (c : Client) (url : String) : HttpRequest :=
  { method := "POST", url := c.base_url ++ "/parse_website/parse", timeout := 60,
    params := [("url", url)], headers := [("accept", "application/json")] }

/-- `parse_website`: no file check; POSTs and wraps the response, a
`RequestException` becoming a failure result. -/
def parse_website (env : Env) (c : Client) (url : String) :
    ApiResult × List HttpRequest :=
  let req := websiteRequest c url
  match env.http req with
  | .error e => (.err e, [req])
  | .ok resp =>
    match resp.jsonResult with
    | .ok j => (.ok resp.status_code j, [req])
    | .error e => (.err e, [req])

/-- `run_tests(client, test_type)`: the Python dict of results is
modelled as an association list in insertion order, paired with the HTTP
requests issued. Mirrors the source faithfully, including the early
`return results` when `test_type in ("all", "health")` right after the
health check, and the `False` placeholders stored for the document,
image and media categories. -/
def run_tests (env : Env) (c : Client) (test_type : String) :
    List (String × Bool) × List HttpRequest :=
  let h := test_health env c
  let results := [("health", h.fst.success)]
  let log := h.snd
  if test_type = "all" ∨ test_type = "health" then (results, log)
  else
    let results :=
      if test_type = "all" ∨ test_type = "document" then
        results ++ [("parse_document", false)]
      else results
    let results :=
      if test_type = "all" ∨ test_type = "image" then
        results ++ [("parse_image", false)]
      else results
    let results :=
      if test_type = "all" ∨ test_type = "media" then
        results ++ [("parse_media", false)]
      else results
    if test_type = "all" ∨ test_type = "website" then
      let w := parse_website env c "https://example.com"
      (results ++ [("parse_website", w.fst.success)], log ++ w.snd)
    else (results, log)

/-- Index of the last occurrence of `ch` in `s`, if any
(Python `str.rfind`, restricted to what `os.path.splitext` needs). -/
def rfindChar (s : List Char) (ch : Char) : Option Nat :=
  (List.range s.length).foldl
    (fun acc i => if s.get? i = some ch then some i else acc) none

/-- The extension part of `os.path.splitext(p)` on a POSIX path: the
substring from the last dot onward, provided that dot lies after the
last separator and is not part of a leading run of dots of the
basename; otherwise the empty string. -/
def splitext_ext (p : String) : String :=
  let s := p.toList
  let filenameIndex : Nat :=
    match rfindChar s '/' with
    | some i => i + 1
    | none => 0
  match rfindChar s '.' with
  | none => ""
  | some dotIndex =>
    if filenameIndex ≤ dotIndex ∧
        ((List.range' filenameIndex (dotIndex - filenameIndex)).any
          (fun i => s.get? i != some '.')) = true then
      String.mk (s.drop dotIndex)
    else ""

/-- Python `str.lower()`, restricted to ASCII as the extensions compared
against are all ASCII. -/
def strLower (s : String) : String := String.mk (s.data.map Char.toLower)

/-- The parsed CLI arguments of `main`, with `argparse` defaults. -/
structure Args where
  host : String := "localhost"
  port : Nat := 8000
  test : String := "all"
  file : Option String := none
  url : Option String := none
  task : String := "Caption"
  output : String := "summary"

/-- What an invocation of `main` does: runs one file-based client call,
runs the website call, runs the test suite, or prints an unsupported
file type message and exits with the given status code. -/
inductive MainOutcome where
  | fileResult (r : ApiResult)
  | websiteResult (r : ApiResult)
  | testResults (r : List (String × Bool))
  | exitError (msg : String) (code : Nat)
deriving Repr

/-- Document extensions recognized by `main`. -/
def documentExts : List String := [".pdf", ".ppt", ".doc", ".pptx", ".docx"]

/-- Image extensions recognized by `main`. -/
def imageExts : List String := [".jpg", ".jpeg", ".png", ".bmp", ".gif", ".tiff"]

/-- Audio extensions recognized by `main`. -/
def audioExts : List String := [".mp3", ".wav", ".aac"]

/-- Video extensions recognized by `main`. -/
def videoExts : List String := [".mp4", ".mkv", ".avi", ".mov"]

/-- The client `main` constructs from the parsed arguments. -/
def mainClient (args : Args) : Client :=
  { host := args.host, port := args.port }

/-- The dispatch of `main`: with `--file`, route on the lowercased
extension (unknown extensions print an unsupported-type message and
`sys.exit(1)` without any request); otherwise with `--url` call
`parse_website`; otherwise run the test suite. Output formatting is
print-only and not modelled. -/
def main (env : Env) (args : Args) : MainOutcome × List HttpRequest :=
  let client := mainClient args
  match args.file with
  | some f =>
    let ext := strLower (splitext_ext f)
    if documentExts.contains ext then
      let r := parse_document env client f
      (.fileResult r.fst, r.snd)
    else if imageExts.contains ext then
      let r := process_image env client f args.task
      (.fileResult r.fst, r.snd)
    else if audioExts.contains ext then
      let r := parse_media_audio env client f
      (.fileResult r.fst, r.snd)
    else if videoExts.contains ext then
      let r := parse_media_video env client f
      (.fileResult r.fst, r.snd)
    else
      (.exitError ("Unsupported file type: " ++ ext) 1, [])
  | none =>
    match args.url with
    | some u =>
      let r := parse_website env client u
      (.websiteResult r.fst, r.snd)
    | none =>
      let r := run_tests env client args.test
      (.testResults r.fst, r.snd)

/-- Fixture: a 500 response with a decodable JSON body. -/
def respServerError : HttpResponse :=
  ⟨500, "body", .ok (Json.mk "data")⟩

/-- Fixture: no path exists; the network is never consulted. -/
def envNoFiles : Env :=
  ⟨fun _ => false, fun _ => .error "unreachable"⟩

/-- Fixture: every path exists; every request raises a connection
error. -/
def envDown : Env :=
  ⟨fun _ => true, fun _ => .error "Connection refused"⟩

/-- Fixture: every path exists; every request yields the 500 response. -/
def envUp : Env :=
  ⟨fun _ => true, fun _ => .ok respServerError⟩

/-- Fixture: the default client (localhost:8000). -/
def defaultClient : Client :=
  ⟨"localhost", 8000⟩

end TutorialPoc

open Omniparse TutorialPoc

/-- Helper: with the documents flag false, the media and web load steps
do not touch the vision fields nor the document field. -/
theorem vision_preserved (lm lw : Bool) (env : LoadEnv) (s s' : SharedState)
    (h : load_omnimodel false lm lw env s = .ok s') :
    s'.vision_model = s.vision_model ∧ s'.vision_processor = s.vision_processor ∧
    s'.model_list = s.model_list := by
  cases lm <;> cases lw <;>
    simp [load_omnimodel, loadMediaStep, loadWebStep, bind, Except.bind, pure, Except.pure] at h
  · subst h; exact ⟨rfl, rfl, rfl⟩
  · cases hw : env.webcrawler_new with
    | error e => rw [hw] at h; simp at h
    | ok cv => rw [hw] at h; simp at h; subst h; exact ⟨rfl, rfl, rfl⟩
  · cases hm : env.whisper_load_model with
    | error e => rw [hm] at h; simp at h
    | ok w => rw [hm] at h; simp at h; subst h; exact ⟨rfl, rfl, rfl⟩
  · cases hm : env.whisper_load_model with
    | error e => rw [hm] at h; simp at h
    | ok w =>
      rw [hm] at h; simp at h
      cases hw : env.webcrawler_new with
      | error e => rw [hw] at h; simp at h
      | ok cv => rw [hw] at h; simp at h; subst h; exact ⟨rfl, rfl, rfl⟩

/-- Helper: a successful documents step leaves the vision fields either
both set or both unset. -/
theorem loadDocumentsStep_vision (env : LoadEnv) (s s₁ : SharedState)
    (h : loadDocumentsStep env s = .ok s₁) :
    (s₁.vision_model = none ∧ s₁.vision_processor = none) ∨
    (∃ vm vp, s₁.vision_model = some vm ∧ s₁.vision_processor = some vp) := by
  cases hm : env.load_all_models with
  | error e => simp [loadDocumentsStep, hm] at h
  | ok m =>
    cases hv : env.florence_model with
    | error e =>
      simp [loadDocumentsStep, hm, hv] at h
      subst h; exact Or.inl ⟨rfl, rfl⟩
    | ok vm =>
      cases hp : env.florence_processor with
      | error e =>
        simp [loadDocumentsStep, hm, hv, hp] at h
        subst h; exact Or.inl ⟨rfl, rfl⟩
      | ok vp =>
        simp [loadDocumentsStep, hm, hv, hp] at h
        subst h; exact Or.inr ⟨vm, vp, rfl, rfl⟩

/-- C5: calling `load_omnimodel` with all three flags false leaves every
field of the shared holder unset, given the initial all-`None`
holder. -/
theorem load_no_flags_leaves_state_unset (env : LoadEnv) :
    load_omnimodel false false false env initialSharedState =
      Except.ok initialSharedState ∧
    initialSharedState.model_list = none ∧
    initialSharedState.vision_model = none ∧
    initialSharedState.vision_processor = none ∧
    initialSharedState.whisper_model = none ∧
    initialSharedState.crawler = none :=
  ⟨rfl, rfl, rfl, rfl, rfl, rfl⟩

/-- C6: calling `load_omnimodel` with only `load_documents` true
populates `model_list`, leaves `whisper_model` and `crawler` unset, and
populates both vision fields, these remaining unset exactly when the
optional vision load raised. -/
theorem load_documents_only_populates (env : LoadEnv) (s' : SharedState)
    (h : load_omnimodel true false false env initialSharedState = .ok s') :
    (∃ m, env.load_all_models = .ok m ∧ s'.model_list = some m) ∧
    s'.whisper_model = none ∧ s'.crawler = none ∧
    ((∃ vm vp, env.florence_model = .ok vm ∧ env.florence_processor = .ok vp ∧
        s'.vision_model = some vm ∧ s'.vision_processor = some vp) ∨
      (visionLoadFails env ∧ s'.vision_model = none ∧ s'.vision_processor = none)) := by
  cases hm : env.load_all_models with
  | error e =>
    simp [load_omnimodel, loadDocumentsStep, hm, bind, Except.bind] at h
  | ok m =>
    cases hv : env.florence_model with
    | error e =>
      simp [load_omnimodel, loadDocumentsStep, hm, hv, bind, Except.bind, pure,
        Except.pure] at h
      subst h
      exact ⟨⟨m, rfl, rfl⟩, rfl, rfl, Or.inr ⟨Or.inl ⟨e, hv⟩, rfl, rfl⟩⟩
    | ok vm =>
      cases hp : env.florence_processor with
      | error e =>
        simp [load_omnimodel, loadDocumentsStep, hm, hv, hp, bind, Except.bind, pure,
          Except.pure] at h
        subst h
        exact ⟨⟨m, rfl, rfl⟩, rfl, rfl, Or.inr ⟨Or.inr ⟨e, hp⟩, rfl, rfl⟩⟩
      | ok vp =>
        simp [load_omnimodel, loadDocumentsStep, hm, hv, hp, bind, Except.bind, pure,
          Except.pure] at h
        subst h
        exact ⟨⟨m, rfl, rfl⟩, rfl, rfl, Or.inl ⟨vm, vp, rfl, rfl, rfl, rfl⟩⟩

/-- Witness for C6: with every load succeeding, loading documents only
gives the expected holder. -/
theorem load_documents_only_populates_witness :
    (∃ m, envAllOk.load_all_models = .ok m ∧
      (SharedState.mk (some 1) (some 2) (some 3) none none).model_list = some m) ∧
    (SharedState.mk (some 1) (some 2) (some 3) none none).whisper_model = none ∧
    (SharedState.mk (some 1) (some 2) (some 3) none none).crawler = none ∧
    ((∃ vm vp, envAllOk.florence_model = .ok vm ∧ envAllOk.florence_processor = .ok vp ∧
        (SharedState.mk (some 1) (some 2) (some 3) none none).vision_model = some vm ∧
        (SharedState.mk (some 1) (some 2) (some 3) none none).vision_processor = some vp) ∨
      (visionLoadFails envAllOk ∧
        (SharedState.mk (some 1) (some 2) (some 3) none none).vision_model = none ∧
        (SharedState.mk (some 1) (some 2) (some 3) none none).vision_processor = none)) :=
  load_documents_only_populates envAllOk
    (SharedState.mk (some 1) (some 2) (some 3) none none) rfl

/-- C1: a vision-load failure is contained: the documents step still
succeeds with both vision fields `None`, the call continues exactly as
the media and web steps from that state, and any resulting holder has
both vision fields `None`. -/
theorem vision_failure_contained (lm lw : Bool) (env : LoadEnv) (s : SharedState)
    (m : Nat) (hdoc : env.load_all_models = .ok m) (hfail : visionLoadFails env) :
    loadDocumentsStep env s = .ok (afterVisionFailure s m) ∧
    load_omnimodel true lm lw env s =
      load_omnimodel false lm lw env (afterVisionFailure s m) ∧
    (∀ s', load_omnimodel true lm lw env s = .ok s' →
      s'.vision_model = none ∧ s'.vision_processor = none) := by
  have hstep : loadDocumentsStep env s = .ok (afterVisionFailure s m) := by
    cases hv : env.florence_model with
    | error e => simp [loadDocumentsStep, afterVisionFailure, hdoc, hv]
    | ok vm =>
      cases hp : env.florence_processor with
      | error e => simp [loadDocumentsStep, afterVisionFailure, hdoc, hv, hp]
      | ok vp =>
        exfalso
        rcases hfail with ⟨e, he⟩ | ⟨e, he⟩
        · rw [hv] at he; exact Except.noConfusion he
        · rw [hp] at he; exact Except.noConfusion he
  have hcont : load_omnimodel true lm lw env s =
      load_omnimodel false lm lw env (afterVisionFailure s m) := by
    simp [load_omnimodel, hstep, bind, Except.bind, pure, Except.pure]
  refine ⟨hstep, hcont, ?_⟩
  intro s' h
  rw [hcont] at h
  have hp := vision_preserved lm lw env _ s' h
  simp [afterVisionFailure] at hp
  exact ⟨hp.1, hp.2.1⟩

/-- Witness for C1: with the vision model load raising and everything
else succeeding, all three parts of the containment statement hold at
the initial holder. -/
theorem vision_failure_contained_witness :
    loadDocumentsStep envVisionFail initialSharedState =
      .ok (afterVisionFailure initialSharedState 1) ∧
    load_omnimodel true true true envVisionFail initialSharedState =
      load_omnimodel false true true envVisionFail
        (afterVisionFailure initialSharedState 1) ∧
    (∀ s', load_omnimodel true true true envVisionFail initialSharedState = .ok s' →
      s'.vision_model = none ∧ s'.vision_processor = none) :=
  vision_failure_contained true true envVisionFail initialSharedState 1 rfl
    (Or.inl ⟨"flash_attn is not installed", rfl⟩)

/-- C9: the vision model and processor fields are kept atomically in
sync: if they are equi-defined before a `load_omnimodel` call, they are
equi-defined after it (both get set, or both reset to `None` when the
load fails part-way). -/
theorem vision_fields_atomic (ld lm lw : Bool) (env : LoadEnv) (s s' : SharedState)
    (hs : s.vision_model.isSome = s.vision_processor.isSome)
    (h : load_omnimodel ld lm lw env s = .ok s') :
    s'.vision_model.isSome = s'.vision_processor.isSome := by
  cases ld with
  | false =>
    have hp := vision_preserved lm lw env s s' h
    rw [hp.1, hp.2.1]; exact hs
  | true =>
    cases hstep : loadDocumentsStep env s with
    | error e => simp [load_omnimodel, hstep, bind, Except.bind] at h
    | ok s₁ =>
      have h' : load_omnimodel false lm lw env s₁ = .ok s' := by
        simp [load_omnimodel, hstep, bind, Except.bind, pure, Except.pure] at h ⊢
        exact h
      have hp := vision_preserved lm lw env s₁ s' h'
      rcases loadDocumentsStep_vision env s s₁ hstep with ⟨h1, h2⟩ | ⟨vm, vp, h1, h2⟩ <;>
        simp [hp.1, hp.2.1, h1, h2]

/-- C2 (evidence of the bug): for `test_type = "all"` the runner
returns right after the health check: the returned results dictionary
holds only the `health` key — no document, image, media or website
entry — because of the early `return results` guarded by
`test_type in ("all", "health")`. -/
theorem run_tests_all_returns_only_health (env : Env) (c : Client) :
    run_tests env c "all" =
      ([("health", (test_health env c).fst.success)], (test_health env c).snd) ∧
    (run_tests env c "all").fst.map Prod.fst = ["health"] :=
  ⟨rfl, rfl⟩

/-- C3: every file-based client method, given a path that does not
exist, returns a failure result whose message is `File not found: `
followed by the path (hence contains `File not found`) and issues no
HTTP request. -/
theorem file_methods_missing_file (env : Env) (c : Client)
    (path task endpoint : String) (h : env.fileExists path = false) :
    parse_document env c path = (.err ("File not found: " ++ path), []) ∧
    _parse_file_endpoint env c endpoint path = (.err ("File not found: " ++ path), []) ∧
    parse_document_pdf env c path = (.err ("File not found: " ++ path), []) ∧
    parse_document_ppt env c path = (.err ("File not found: " ++ path), []) ∧
    parse_document_docs env c path = (.err ("File not found: " ++ path), []) ∧
    parse_image env c path = (.err ("File not found: " ++ path), []) ∧
    process_image env c path task = (.err ("File not found: " ++ path), []) ∧
    parse_media_audio env c path = (.err ("File not found: " ++ path), []) ∧
    parse_media_video env c path = (.err ("File not found: " ++ path), []) ∧
    (∃ pre post, ("File not found: " ++ path).toList =
      pre ++ "File not found".toList ++ post) := by
  refine ⟨?_, ?_, ?_, ?_, ?_, ?_, ?_, ?_, ?_, ?_⟩
  · simp [parse_document, h]
  · simp [_parse_file_endpoint, h]
  · simp [parse_document_pdf, _parse_file_endpoint, h]
  · simp [parse_document_ppt, _parse_file_endpoint, h]
  · simp [parse_document_docs, _parse_file_endpoint, h]
  · simp [parse_image, h]
  · simp [process_image, h]
  · simp [parse_media_audio, h]
  · simp [parse_media_video, h]
  · refine ⟨[], ": ".toList ++ path.toList, ?_⟩
    show ("File not found: " ++ path).data =
      [] ++ "File not found".data ++ (": ".data ++ path.data)
    rw [String.data_append]
    simp

/-- Witness for C3: with no path existing, `parse_document` on a
concrete path returns the file-not-found failure and no request. -/
theorem file_methods_missing_file_witness :
    envNoFiles.fileExists "missing.pdf" = false ∧
    parse_document envNoFiles defaultClient "missing.pdf" =
      (.err ("File not found: " ++ "missing.pdf"), []) :=
  ⟨rfl, (file_methods_missing_file envNoFiles defaultClient "missing.pdf" "Caption"
    "/parse_document/pdf" rfl).1⟩

/-- C4: every client method converts a network-layer exception raised
by its HTTP request into a failure result carrying the exception
message; nothing propagates. -/
theorem client_methods_network_error (env : Env) (c : Client)
    (path url task endpoint msg : String) (hfile : env.fileExists path = true) :
    (env.http (healthRequest c) = .error msg →
      test_health env c = (.err msg, [healthRequest c])) ∧
    (env.http (documentRequest c path) = .error msg →
      parse_document env c path = (.err msg, [documentRequest c path])) ∧
    (env.http (fileEndpointRequest c endpoint path) = .error msg →
      _parse_file_endpoint env c endpoint path =
        (.err msg, [fileEndpointRequest c endpoint path])) ∧
    (env.http (fileEndpointRequest c "/parse_document/pdf" path) = .error msg →
      parse_document_pdf env c path =
        (.err msg, [fileEndpointRequest c "/parse_document/pdf" path])) ∧
    (env.http (fileEndpointRequest c "/parse_document/ppt" path) = .error msg →
      parse_document_ppt env c path =
        (.err msg, [fileEndpointRequest c "/parse_document/ppt" path])) ∧
    (env.http (fileEndpointRequest c "/parse_document/docs" path) = .error msg →
      parse_document_docs env c path =
        (.err msg, [fileEndpointRequest c "/parse_document/docs" path])) ∧
    (env.http (imageRequest c path) = .error msg →
      parse_image env c path = (.err msg, [imageRequest c path])) ∧
    (env.http (processImageRequest c path task) = .error msg →
      process_image env c path task = (.err msg, [processImageRequest c path task])) ∧
    (env.http (audioRequest c path) = .error msg →
      parse_media_audio env c path = (.err msg, [audioRequest c path])) ∧
    (env.http (videoRequest c path) = .error msg →
      parse_media_video env c path = (.err msg, [videoRequest c path])) ∧
    (env.http (websiteRequest c url) = .error msg →
      parse_website env c url = (.err msg, [websiteRequest c url])) := by
  refine ⟨?_, ?_, ?_, ?_, ?_, ?_, ?_, ?_, ?_, ?_, ?_⟩ <;> intro hh
  · simp [test_health, hh]
  · simp [parse_document, hfile, hh]
  · simp [_parse_file_endpoint, hfile, hh]
  · simp [parse_document_pdf, _parse_file_endpoint, hfile, hh]
  · simp [parse_document_ppt, _parse_file_endpoint, hfile, hh]
  · simp [parse_document_docs, _parse_file_endpoint, hfile, hh]
  · simp [parse_image, hfile, hh]
  · simp [process_image, hfile, hh]
  · simp [parse_media_audio, hfile, hh]
  · simp [parse_media_video, hfile, hh]
  · simp [parse_website, hh]

/-- Witness for C4: against an unreachable server, the health check
returns the failure result carrying the connection error. -/
theorem client_methods_network_error_witness :
    envDown.fileExists "doc.pdf" = true ∧
    test_health envDown defaultClient =
      (.err "Connection refused", [healthRequest defaultClient]) :=
  ⟨rfl, (client_methods_network_error envDown defaultClient "doc.pdf"
    "https://example.com" "Caption" "/parse_document/pdf" "Connection refused"
    rfl).1 rfl⟩

/-- C8: when an HTTP exchange completes (a response arrives and its
body decodes), every client method reports success, whatever the status
code — the flag only records that a decoded response was received. -/
theorem completed_exchange_success_true (env : Env) (c : Client)
    (path url task endpoint : String) (resp : HttpResponse) (j : Json)
    (hhttp : env.http = fun _ => .ok resp) (hj : resp.jsonResult = .ok j)
    (hfile : env.fileExists path = true) :
    (test_health env c).fst.success = true ∧
    (parse_document env c path).fst = .ok resp.status_code j ∧
    (_parse_file_endpoint env c endpoint path).fst = .ok resp.status_code j ∧
    (parse_document_pdf env c path).fst = .ok resp.status_code j ∧
    (parse_document_ppt env c path).fst = .ok resp.status_code j ∧
    (parse_document_docs env c path).fst = .ok resp.status_code j ∧
    (parse_image env c path).fst = .ok resp.status_code j ∧
    (process_image env c path task).fst = .ok resp.status_code j ∧
    (parse_media_audio env c path).fst = .ok resp.status_code j ∧
    (parse_media_video env c path).fst = .ok resp.status_code j ∧
    (parse_website env c url).fst = .ok resp.status_code j := by
  refine ⟨?_, ?_, ?_, ?_, ?_, ?_, ?_, ?_, ?_, ?_, ?_⟩
  · by_cases ht : resp.text = "" <;>
      simp [test_health, hhttp, ht, hj, ApiResult.success]
  · simp [parse_document, hhttp, hj, hfile]
  · simp [_parse_file_endpoint, hhttp, hj, hfile]
  · simp [parse_document_pdf, _parse_file_endpoint, hhttp, hj, hfile]
  · simp [parse_document_ppt, _parse_file_endpoint, hhttp, hj, hfile]
  · simp [parse_document_docs, _parse_file_endpoint, hhttp, hj, hfile]
  · simp [parse_image, hhttp, hj, hfile]
  · simp [process_image, hhttp, hj, hfile]
  · simp [parse_media_audio, hhttp, hj, hfile]
  · simp [parse_media_video, hhttp, hj, hfile]
  · simp [parse_website, hhttp, hj]

/-- Witness for C8: on a 500 response with a decodable body,
`parse_document` still reports success. -/
theorem completed_exchange_success_true_witness :
    envUp.http = (fun _ => .ok respServerError) ∧
    respServerError.jsonResult = .ok (Json.mk "data") ∧
    envUp.fileExists "doc.pdf" = true ∧
    (parse_document envUp defaultClient "doc.pdf").fst =
      .ok respServerError.status_code (Json.mk "data") :=
  ⟨rfl, rfl, rfl, (completed_exchange_success_true envUp defaultClient "doc.pdf"
    "https://example.com" "Caption" "/parse_document/pdf" respServerError
    (Json.mk "data") rfl rfl rfl).2.1⟩

/-- Helper: an image extension never lies in the document list. -/
theorem imageExts_not_doc (e : String) (h : imageExts.contains e = true) :
    documentExts.contains e = false := by
  simp [imageExts] at h
  rcases h with rfl | rfl | rfl | rfl | rfl | rfl <;> decide

/-- Helper: an audio extension lies in neither of the earlier lists. -/
theorem audioExts_not_prior (e : String) (h : audioExts.contains e = true) :
    documentExts.contains e = false ∧ imageExts.contains e = false := by
  simp [audioExts] at h
  rcases h with rfl | rfl | rfl <;> exact ⟨by decide, by decide⟩

/-- Helper: a video extension lies in none of the earlier lists. -/
theorem videoExts_not_prior (e : String) (h : videoExts.contains e = true) :
    documentExts.contains e = false ∧ imageExts.contains e = false ∧
    audioExts.contains e = false := by
  simp [videoExts] at h
  rcases h with rfl | rfl | rfl | rfl <;> exact ⟨by decide, by decide, by decide⟩

/-- C7: the CLI routes a `--file` argument by its lowercased extension
to the document, image-processing, audio or video client call; with no
file and a `--url` it calls `parse_website`; with neither it runs the
test suite. -/
theorem main_dispatch_routes (env : Env) (args : Args) (f u : String) :
    (args.file = some f → documentExts.contains (strLower (splitext_ext f)) = true →
      main env args = (.fileResult (parse_document env (mainClient args) f).fst,
        (parse_document env (mainClient args) f).snd)) ∧
    (args.file = some f → imageExts.contains (strLower (splitext_ext f)) = true →
      main env args = (.fileResult (process_image env (mainClient args) f args.task).fst,
        (process_image env (mainClient args) f args.task).snd)) ∧
    (args.file = some f → audioExts.contains (strLower (splitext_ext f)) = true →
      main env args = (.fileResult (parse_media_audio env (mainClient args) f).fst,
        (parse_media_audio env (mainClient args) f).snd)) ∧
    (args.file = some f → videoExts.contains (strLower (splitext_ext f)) = true →
      main env args = (.fileResult (parse_media_video env (mainClient args) f).fst,
        (parse_media_video env (mainClient args) f).snd)) ∧
    (args.file = none → args.url = some u →
      main env args = (.websiteResult (parse_website env (mainClient args) u).fst,
        (parse_website env (mainClient args) u).snd)) ∧
    (args.file = none → args.url = none →
      main env args = (.testResults (run_tests env (mainClient args) args.test).fst,
        (run_tests env (mainClient args) args.test).snd)) := by
  refine ⟨?_, ?_, ?_, ?_, ?_, ?_⟩
  · intro hf hext
    have h1 : strLower (splitext_ext f) ∈ documentExts := by simpa using hext
    simp [main, hf, h1]
  · intro hf hext
    have h1 : strLower (splitext_ext f) ∈ imageExts := by simpa using hext
    have h2 : strLower (splitext_ext f) ∉ documentExts := by
      simpa using imageExts_not_doc _ hext
    simp [main, hf, h1, h2]
  · intro hf hext
    have hd := audioExts_not_prior _ hext
    have h1 : strLower (splitext_ext f) ∈ audioExts := by simpa using hext
    have h2 : strLower (splitext_ext f) ∉ documentExts := by simpa using hd.1
    have h3 : strLower (splitext_ext f) ∉ imageExts := by simpa using hd.2
    simp [main, hf, h1, h2, h3]
  · intro hf hext
    have hd := videoExts_not_prior _ hext
    have h1 : strLower (splitext_ext f) ∈ videoExts := by simpa using hext
    have h2 : strLower (splitext_ext f) ∉ documentExts := by simpa using hd.1
    have h3 : strLower (splitext_ext f) ∉ imageExts := by simpa using hd.2.1
    have h4 : strLower (splitext_ext f) ∉ audioExts := by simpa using hd.2.2
    simp [main, hf, h1, h2, h3, h4]
  · intro hf hu
    simp [main, hf, hu]
  · intro hf hu
    simp [main, hf, hu]

/-- Witness for C7: a `.PDF` file routes to `parse_document`, a URL
routes to `parse_website`, no arguments run the suite. -/
theorem main_dispatch_routes_witness :
    main envDown { file := some "report.PDF" } =
      (.fileResult (parse_document envDown
          (mainClient { file := some "report.PDF" }) "report.PDF").fst,
        (parse_document envDown
          (mainClient { file := some "report.PDF" }) "report.PDF").snd) ∧
    main envDown { url := some "https://example.com" } =
      (.websiteResult (parse_website envDown
          (mainClient { url := some "https://example.com" }) "https://example.com").fst,
        (parse_website envDown
          (mainClient { url := some "https://example.com" }) "https://example.com").snd) ∧
    main envDown {} =
      (.testResults (run_tests envDown (mainClient {}) ({} : Args).test).fst,
        (run_tests envDown (mainClient {}) ({} : Args).test).snd) :=
  ⟨(main_dispatch_routes envDown { file := some "report.PDF" } "report.PDF"
      "https://example.com").1 rfl (by decide),
    (main_dispatch_routes envDown { url := some "https://example.com" } "f"
      "https://example.com").2.2.2.2.1 rfl rfl,
    (main_dispatch_routes envDown {} "f" "u").2.2.2.2.2 rfl rfl⟩

/-- C10: a `--file` whose lowercased extension is in none of the four
recognized lists makes `main` print an unsupported-file-type message
and exit with status 1, with no HTTP request issued. -/
theorem main_unsupported_extension (env : Env) (args : Args) (f : String)
    (hf : args.file = some f)
    (hdoc : documentExts.contains (strLower (splitext_ext f)) = false)
    (himg : imageExts.contains (strLower (splitext_ext f)) = false)
    (haud : audioExts.contains (strLower (splitext_ext f)) = false)
    (hvid : videoExts.contains (strLower (splitext_ext f)) = false) :
    main env args =
      (.exitError ("Unsupported file type: " ++ strLower (splitext_ext f)) 1, []) := by
  have h1 : strLower (splitext_ext f) ∉ documentExts := by simpa using hdoc
  have h2 : strLower (splitext_ext f) ∉ imageExts := by simpa using himg
  have h3 : strLower (splitext_ext f) ∉ audioExts := by simpa using haud
  have h4 : strLower (splitext_ext f) ∉ videoExts := by simpa using hvid
  simp [main, hf, h1, h2, h3, h4]

/-- Witness for C10: a `.xyz` file makes `main` exit with status 1 and
no request. -/
theorem main_unsupported_extension_witness :
    main envDown { file := some "notes.xyz" } =
      (.exitError ("Unsupported file type: " ++ strLower (splitext_ext "notes.xyz")) 1,
        []) :=
  main_unsupported_extension envDown { file := some "notes.xyz" } "notes.xyz" rfl
    (by decide) (by decide) (by decide) (by decide)

/-- Witness for C9: a full load with the vision load failing keeps the
fields equi-defined (both `None`). -/
theorem vision_fields_atomic_witness :
    (initialSharedState.vision_model.isSome =
      initialSharedState.vision_processor.isSome) ∧
    load_omnimodel true true true envVisionFail initialSharedState =
      .ok (SharedState.mk (some 1) none none (some 4) (some 5)) ∧
    ((SharedState.mk (some 1) none none (some 4) (some 5)).vision_model.isSome =
      (SharedState.mk (some 1) none none (some 4) (some 5)).vision_processor.isSome) :=
  ⟨rfl, rfl,
    vision_fields_atomic true true true envVisionFail initialSharedState
      (SharedState.mk (some 1) none none (some 4) (some 5)) rfl rfl⟩
